import Mathlib

/-!
Verification of the fast-record dataset-build pipeline.

The Rust source (src/dataset/{classifier,similarity,tagging,traits}.rs) is
embedded shallowly: hash maps become association lists with overwrite-on-insert
(entry order standing for the map's unspecified iteration order), machine
integers become `Nat` with explicit `% 2 ^ w` where a Rust `as` cast truncates,
and code that can panic returns `Option` (`none` models the panic).  File I/O is
abstracted to lists of lines.
-/

/-- Model of `HashMap<String, usize>::insert`: any previous binding of the key
is removed and the new binding appended (overwrite semantics; entry order is
the map's unspecified iteration order). -/
def mapInsert : List (String × Nat) → String → Nat → List (String × Nat)
  | [], k, v => [(k, v)]
  | p :: m, k, v => if p.1 = k then mapInsert m k v else p :: mapInsert m k v

/-- Model of `HashMap<String, usize>::get`. -/
def mapLookup : List (String × Nat) → String → Option Nat
  | [], _ => none
  | p :: m, k => if p.1 = k then some p.2 else mapLookup m k

/-- Model of Rust `split(' ')` on a char list: split on every single space,
preserving empty tokens between consecutive spaces and at the ends. -/
def wordSplit : List Char → List (List Char)
  | [] => [[]]
  | c :: rest =>
    if c = ' ' then [] :: wordSplit rest
    else
      match wordSplit rest with
      | [] => [[c]]
      | w :: ws => (c :: w) :: ws

/-- Tokenizer used throughout the pipeline: word mode is Rust `split(' ')`
(splits on every single space, preserving empty tokens), character mode is
`chars()` with every Unicode scalar its own one-character token. -/
def tokenize (withLangEn : Bool) (s : String) : List String :=
  if withLangEn then (wordSplit s.data).map String.mk
  else s.data.map (fun c => String.mk [c])

/-- Model of `str::split_once` on char lists: split at the first occurrence of
`sep`, returning the text before and after it, or `none` when `sep` does not
occur. -/
def splitOnceChars (sep : List Char) : List Char → Option (List Char × List Char)
  | [] => if sep.isPrefixOf ([] : List Char) then some ([], []) else none
  | c :: rest =>
    if sep.isPrefixOf (c :: rest) then some ([], (c :: rest).drop sep.length)
    else (splitOnceChars sep rest).map (fun p => (c :: p.1, p.2))

/-- Model of `str::split_once`. -/
def splitOnce (sep line : String) : Option (String × String) :=
  (splitOnceChars sep.data line.data).map (fun p => (String.mk p.1, String.mk p.2))

/-- All-or-nothing map over a list: `none` models a panic raised inside the
Rust closure (`unwrap` on a failed per-element step aborts the whole build). -/
def mapOpt (f : α → Option β) : List α → Option (List β)
  | [] => some []
  | a :: l =>
    match f a, mapOpt f l with
    | some b, some bs => some (b :: bs)
    | _, _ => none

/-- Model of `bool::from_str` as used by `label.parse::<bool>()`. -/
def parseBool (s : String) : Option Bool :=
  if s = "true" then some true else if s = "false" then some false else none

/-- Model of `label.parse::<u8>()`: digits only, value at most 255. -/
def parseU8 (s : String) : Option Nat :=
  match s.toNat? with
  | some n => if n ≤ 255 then some n else none
  | none => none

/-- ClassifierSample (classifier.rs 73-79): raw text and raw label string. -/
structure ClassifierSample where
  sent : String
  label : String
  deriving DecidableEq

/-- ClassifierRecord (classifier.rs 53-56). -/
structure ClassifierRecord where
  word_ids : List Nat
  label_id : Nat
  deriving DecidableEq

/-- ClassifierRecord::new (classifier.rs 59-70): truncate to the first
`max_length` ids via `split_off`, or right-pad with 0 up to `max_length`. -/
def ClassifierRecord.new (word_ids : List Nat) (label_id : Nat) (max_length : Nat) :
    ClassifierRecord :=
  if word_ids.length > max_length then
    ⟨word_ids.take max_length, label_id⟩
  else if word_ids.length < max_length then
    ⟨word_ids ++ List.replicate (max_length - word_ids.length) 0, label_id⟩
  else
    ⟨word_ids, label_id⟩

/-- SimilaritySample (similarity.rs 82-88): two raw texts and a `u8` label. -/
structure SimilaritySample where
  sent_a : String
  sent_b : String
  label : Nat
  deriving DecidableEq

/-- SimilarityRecord (similarity.rs 55-59). -/
structure SimilarityRecord where
  front_word_ids : List Nat
  back_word_ids : List Nat
  label : Nat
  deriving DecidableEq

/-- SimilarityRecord::new (similarity.rs 62-81): truncate or right-pad each of
the two id sequences independently to `max_length`. -/
def SimilarityRecord.new (front back : List Nat) (label : Nat) (max_length : Nat) :
    SimilarityRecord :=
  let front' :=
    if front.length > max_length then front.take max_length
    else if front.length < max_length then
      front ++ List.replicate (max_length - front.length) 0
    else front
  let back' :=
    if back.length > max_length then back.take max_length
    else if back.length < max_length then
      back ++ List.replicate (max_length - back.length) 0
    else back
  ⟨front', back', label⟩

/-- TaggingSample (tagging.rs 52-64): parallel token and tag sequences. -/
structure TaggingSample where
  tokens : List String
  tags : List String
  deriving DecidableEq

/-- TaggingRecord (tagging.rs 66-69). -/
structure TaggingRecord where
  token_ids : List Nat
  tag_ids : List Nat
  deriving DecidableEq

/-- TaggingRecord::new (tagging.rs 72-85): `none` models the
`panic!("max length is less then current length ...")` taken when the token
sequence is longer than `max_length`; otherwise both sequences are right-padded
with 0 by the same count, derived from the token-sequence length. -/
def TaggingRecord.new (token_ids tag_ids : List Nat) (max_length : Nat) :
    Option TaggingRecord :=
  if token_ids.length > max_length then none
  else if token_ids.length < max_length then
    some ⟨token_ids ++ List.replicate (max_length - token_ids.length) 0,
          tag_ids ++ List.replicate (max_length - token_ids.length) 0⟩
  else some ⟨token_ids, tag_ids⟩

/-- The `enumerate().for_each(|(i, w)| map.insert(w, i + start))` loop shared by
all `init` implementations, with the running index made explicit. -/
def insertEnumFrom : List (String × Nat) → List String → Nat → List (String × Nat)
  | m, [], _ => m
  | m, w :: ws, i => insertEnumFrom (mapInsert m w i) ws (i + 1)

/-- Vocabulary construction shared by ClassifierBuilder::init
(classifier.rs 122-142) and SimilarityBuilder::init (similarity.rs 118-143):
insert the padding token at 0, filter the collected distinct tokens by the
stopwords, insert them with ids starting at 1, then insert the unknown token
with id equal to the map's size at that point.  `tokens` is the `HashSet` of
training tokens in its (unspecified) iteration order. -/
def buildVocab (tokens stopwords : List String) (padding unknown : String) :
    List (String × Nat) :=
  let m0 := mapInsert [] padding 0
  let filtered := tokens.filter (fun w => !(stopwords.contains w))
  let m1 := insertEnumFrom m0 filtered 1
  mapInsert m1 unknown m1.length

/-- The distinct tokens of a classifier training split (classifier.rs 123-135),
first-occurrence order standing for the set's iteration order. -/
def classifierCollectTokens (withLangEn : Bool) (samples : List ClassifierSample) :
    List String :=
  (samples.flatMap (fun s => tokenize withLangEn s.sent)).dedup

/-- The distinct tokens of a similarity training split (similarity.rs 119-136):
both texts of every pair contribute. -/
def similarityCollectTokens (withLangEn : Bool) (samples : List SimilaritySample) :
    List String :=
  (samples.flatMap (fun s => tokenize withLangEn s.sent_a ++ tokenize withLangEn s.sent_b)).dedup

/-- ClassifierArgs (classifier.rs 16-51); files are read elsewhere, so the
path-valued fields are carried but unused by the embedded core. -/
structure ClassifierArgs where
  path : String
  output_path : Option String
  with_vocab : Bool
  max_vocab_size : Nat
  sequence_length : Nat
  stopwords_file : Option String
  with_label_id : Bool
  with_lang_en : Bool
  separator : String
  unknown : String
  padding : String

/-- SimilarityArgs (similarity.rs 16-53). -/
structure SimilarityArgs where
  path : String
  output_path : Option String
  with_vocab : Bool
  max_vocab_size : Nat
  sequence_length : Nat
  stopwords_file : Option String
  with_bool : Bool
  with_lang_en : Bool
  sent_sep : String
  label_sep : String
  unknown : String
  padding : String

/-- TaggingArgs (tagging.rs 16-50). -/
structure TaggingArgs where
  path : String
  output_path : Option String
  with_vocab : Bool
  max_vocab_size : Nat
  sequence_length : Nat
  stopwords_file : Option String
  separator : String
  unknown : String
  padding : String
  padding_tag : String

/-- class.txt processing in ClassifierBuilder::init (classifier.rs 103-111):
line `i` is inserted with id `i`. -/
def classifierClasses (classLines : List String) : List (String × Nat) :=
  insertEnumFrom [] classLines 0

/-- The vocabulary ClassifierBuilder::init builds from the training samples,
stopwords abstracted to the stopwords file's lines. -/
def classifierInitVocab (args : ClassifierArgs) (stopwords : List String)
    (samples : List ClassifierSample) : List (String × Nat) :=
  buildVocab (classifierCollectTokens args.with_lang_en samples) stopwords
    args.padding args.unknown

/-- The vocabulary SimilarityBuilder::init builds from the training samples. -/
def similarityInitVocab (args : SimilarityArgs) (stopwords : List String)
    (samples : List SimilaritySample) : List (String × Nat) :=
  buildVocab (similarityCollectTokens args.with_lang_en samples) stopwords
    args.padding args.unknown

/-- Token encoding used by every build_dataset:
`vocab.get(word).map(|it| *it).unwrap_or(*unk_id)`. -/
def encodeToken (vocab : List (String × Nat)) (unkId : Nat) (tok : String) : Nat :=
  (mapLookup vocab tok).getD unkId

/-- Tag encoding in TaggingBuilder::build_dataset (tagging.rs 181-187):
`tags.get(&tag).map(|it| *it).unwrap_or(0)`. -/
def encodeTag (tags : List (String × Nat)) (tag : String) : Nat :=
  (mapLookup tags tag).getD 0

/-- Per-line parse in ClassifierBuilder::read_dataset (classifier.rs 153-156):
`line.split_once(sep).map(...).unwrap()` — a line that does not split panics
(`none`). -/
def classifierParseLine (sep : String) (line : String) : Option ClassifierSample :=
  (splitOnce sep line).map (fun p => ⟨p.1, p.2⟩)

/-- The parsing stage of ClassifierBuilder::read_dataset over a file's lines. -/
def classifierParseLines (sep : String) (lines : List String) :
    Option (List ClassifierSample) :=
  mapOpt (classifierParseLine sep) lines

/-- Per-line parse in SimilarityBuilder::read_dataset (similarity.rs 154-171):
split off the label on `label_sep`, split the remaining context on `sent_sep`,
parse the label as bool (then cast to 0/1) or as `u8`; every `unwrap` on a
failure panics (`none`). -/
def similarityParseLine (withBool : Bool) (sentSep labelSep : String)
    (line : String) : Option SimilaritySample :=
  match splitOnce labelSep line with
  | none => none
  | some (context, label) =>
    match splitOnce sentSep context with
    | none => none
    | some (a, b) =>
      if withBool then
        match parseBool label with
        | none => none
        | some t => some ⟨a, b, if t then 1 else 0⟩
      else
        (parseU8 label).map (fun v => ⟨a, b, v⟩)

/-- The parsing stage of SimilarityBuilder::read_dataset over a file's lines. -/
def similarityParseLines (withBool : Bool) (sentSep labelSep : String)
    (lines : List String) : Option (List SimilaritySample) :=
  mapOpt (similarityParseLine withBool sentSep labelSep) lines

/-- Model of `slice::split(|s| s.is_empty())` in TaggingBuilder::read_dataset
(tagging.rs 151-152): blank-line-delimited groups, empty groups included. -/
def splitGroups : List String → List (List String)
  | [] => [[]]
  | s :: rest =>
    if s = "" then [] :: splitGroups rest
    else
      match splitGroups rest with
      | [] => [[s]]
      | g :: gs => (s :: g) :: gs

/-- Per-group parse in TaggingBuilder::read_dataset (tagging.rs 153-162):
each line is `split_once(sep).unwrap()` (panic on failure), the pairs are
unzipped into parallel token and tag sequences. -/
def taggingParseGroup (sep : String) (group : List String) : Option TaggingSample :=
  (mapOpt (fun line => splitOnce sep line) group).map
    (fun pairs => ⟨pairs.map Prod.fst, pairs.map Prod.snd⟩)

/-- The parsing stage of TaggingBuilder::read_dataset over a file's lines. -/
def taggingParseLines (sep : String) (lines : List String) :
    Option (List TaggingSample) :=
  mapOpt (taggingParseGroup sep) (splitGroups lines)

/-- Label resolution in ClassifierBuilder::build_dataset (classifier.rs
186-192): parse the label string as an id, or look it up in the class map;
either failure is an `unwrap` panic (`none`). -/
def classifierResolveLabel (args : ClassifierArgs) (classes : List (String × Nat))
    (label : String) : Option Nat :=
  if args.with_label_id then label.toNat? else mapLookup classes label

/-- ClassifierBuilder::build_dataset (classifier.rs 160-196): the unknown id is
`vocab.get(unknown).unwrap()`, every token is encoded with `encodeToken`, the
label resolved, and the record padded or truncated by ClassifierRecord::new. -/
def classifierBuildDataset (args : ClassifierArgs) (vocab classes : List (String × Nat))
    (samples : List ClassifierSample) : Option (List ClassifierRecord) :=
  match mapLookup vocab args.unknown with
  | none => none
  | some unkId =>
    mapOpt (fun s =>
      (classifierResolveLabel args classes s.label).map (fun lid =>
        ClassifierRecord.new
          ((tokenize args.with_lang_en s.sent).map (encodeToken vocab unkId))
          lid args.sequence_length)) samples

/-- TaggingBuilder::build_dataset (tagging.rs 166-193): tokens encoded against
the vocabulary with unknown fallback, tags encoded against the tag map with
fallback 0, then TaggingRecord::new (which panics on overflow). -/
def taggingBuildDataset (args : TaggingArgs) (vocab tags : List (String × Nat))
    (samples : List TaggingSample) : Option (List TaggingRecord) :=
  match mapLookup vocab args.unknown with
  | none => none
  | some unkId =>
    mapOpt (fun s =>
      TaggingRecord.new (s.tokens.map (encodeToken vocab unkId))
        (s.tags.map (encodeTag tags)) args.sequence_length) samples

/-- IDataset::build (traits.rs 11-26) specialized to the classifier: read and
parse train, build classes and vocabulary from train, then encode train, dev
and test with those same maps.  File reading is abstracted to the given line
lists; returns the built vocabulary and the three record sequences. -/
def classifierBuild (args : ClassifierArgs)
    (classLines stopLines trainLines devLines testLines : List String) :
    Option (List (String × Nat) × List ClassifierRecord × List ClassifierRecord ×
      List ClassifierRecord) :=
  (classifierParseLines args.separator trainLines).bind fun trainSamples =>
    (classifierBuildDataset args (classifierInitVocab args stopLines trainSamples)
        (classifierClasses classLines) trainSamples).bind fun trainRecs =>
      (classifierParseLines args.separator devLines).bind fun devSamples =>
        (classifierBuildDataset args (classifierInitVocab args stopLines trainSamples)
            (classifierClasses classLines) devSamples).bind fun devRecs =>
          (classifierParseLines args.separator testLines).bind fun testSamples =>
            (classifierBuildDataset args (classifierInitVocab args stopLines trainSamples)
                (classifierClasses classLines) testSamples).map fun testRecs =>
              (classifierInitVocab args stopLines trainSamples, trainRecs, devRecs, testRecs)

/-- The admissible results of ClassifierBuilder::read_dataset
(classifier.rs 145-158): the lines are parsed through rayon's `par_bridge`,
which makes no ordering guarantee for the collected vector, so any permutation
of the per-line parse results is an admissible output (and a parse failure on
any line panics the whole read). -/
def ClassifierReadRel (sep : String) (lines : List String)
    (out : List ClassifierSample) : Prop :=
  ∃ parsed, classifierParseLines sep lines = some parsed ∧ out.Perm parsed

/-- save_vocab (classifier.rs 229-236, similarity.rs 222-229, tagging.rs
194-201): one line per map entry, `writeln!("{}\t{}", idx, word)`. -/
def saveVocabLines (vocab : List (String × Nat)) : List String :=
  vocab.map (fun p => toString p.2 ++ "\t" ++ p.1)

/-- Rust `as u8` cast from `usize`: truncation modulo 2^8. -/
def asU8 (n : Nat) : Nat := n % 256

/-- Rust `as u32` cast from `usize`: truncation modulo 2^32. -/
def asU32 (n : Nat) : Nat := n % 4294967296

/-- records.chunks(100) (classifier.rs 210, tagging.rs 216). -/
def chunksOf : List α → List (List α)
  | [] => []
  | x :: l => ((x :: l).take 100) :: chunksOf ((x :: l).drop 100)
  termination_by l => l.length
  decreasing_by simp; omega

/-- The typed columns of one chunk in ClassifierBuilder::save_dataset
(classifier.rs 210-226): for each sequence position a UInt32 column of
`word_ids[i] as u32`, then one UInt8 column of `label_id as u8`. -/
def classifierColumns (max_length : Nat) (chunk : List ClassifierRecord) :
    List (List Nat) :=
  (List.range max_length).map (fun i => chunk.map (fun r => asU32 (r.word_ids.getD i 0)))
    ++ [chunk.map (fun r => asU8 r.label_id)]

/-- The typed columns of one chunk in TaggingBuilder::save_dataset
(tagging.rs 216-229): for each sequence position a UInt32 token column
(`token_ids[i] as u32`) followed by a UInt8 tag column (`tag_ids[i] as u8`). -/
def taggingColumns (max_length : Nat) (chunk : List TaggingRecord) :
    List (List Nat) :=
  (List.range max_length).flatMap (fun i =>
    [chunk.map (fun r => asU32 (r.token_ids.getD i 0)),
     chunk.map (fun r => asU8 (r.tag_ids.getD i 0))])

/-- Spec-side description of the enumerate-insert loop: fresh keys paired with
consecutive ids from `i`.  Used only to characterize `insertEnumFrom`. -/
def assignIds : List String → Nat → List (String × Nat)
  | [], _ => []
  | w :: ws, i => (w, i) :: assignIds ws (i + 1)

/-- A concrete argument bundle used to instantiate universally quantified
theorems in their witnesses (clap defaults, character mode). -/
def sampleArgs : ClassifierArgs :=
  ⟨"data", none, false, 10000, 4, none, false, false, "\t", "<UNK>", "<PAD>"⟩

/-- A concrete argument bundle in word mode whose configured padding token "p"
can occur as a training token, used to exhibit the padding-id collision. -/
def sampleArgsWordPad : ClassifierArgs :=
  ⟨"data", none, false, 10000, 4, none, false, true, "\t", "u", "p"⟩

-- Concrete evaluations of the embedding, including the worked example of the
-- build pipeline (training text "ab", dev text "abc", classes pos/neg,
-- maximum length 4, character mode).
example : splitOnce "\t" "a\t0" = some ("a", "0") := by decide
example : splitOnce "\t" "ab" = none := by decide
example : tokenize false "ab" = ["a", "b"] := by decide
example : tokenize true "a  b" = ["a", "", "b"] := by decide
example : classifierParseLines "\t" ["ab"] = none := by decide
example : buildVocab ["a", "b"] [] "<PAD>" "<UNK>" =
    [("<PAD>", 0), ("a", 1), ("b", 2), ("<UNK>", 3)] := by decide
example : mapLookup (buildVocab ["p"] [] "p" "u") "p" = some 1 := by decide
example : TaggingRecord.new [1, 2, 3] [4, 5, 6] 2 = none := by decide
example : TaggingRecord.new [1] [4] 3 = some ⟨[1, 0, 0], [4, 0, 0]⟩ := by decide
example : splitGroups ["a", "", "b", "c", ""] = [["a"], ["b", "c"], []] := by decide
example : taggingParseLines "\t" ["a\tA", "b\tB", "", "c\tC"] =
    some [⟨["a", "b"], ["A", "B"]⟩, ⟨["c"], ["C"]⟩] := by decide
example : similarityParseLine true "|" "\t" "x|y\ttrue" = some ⟨"x", "y", 1⟩ := by decide
example : similarityParseLine true "\t" "\t" "x\ty\ttrue" = none := by decide
example : classifierBuild sampleArgs ["pos", "neg"] [] ["ab\tpos"] ["abc\tneg"] [] =
    some ([("<PAD>", 0), ("a", 1), ("b", 2), ("<UNK>", 3)],
      [⟨[1, 2, 0, 0], 0⟩], [⟨[1, 2, 3, 0], 1⟩], []) := by decide

/-- The truncate-or-pad if-cascade used by every record constructor is the
canonical take-then-pad form. -/
theorem ifPadTrunc (w : List Nat) (m : Nat) :
    (if w.length > m then w.take m
     else if w.length < m then w ++ List.replicate (m - w.length) 0 else w) =
    w.take m ++ List.replicate (m - w.length) 0 := by
  split
  · next h =>
    have h0 : m - w.length = 0 := by omega
    simp [h0]
  · next h =>
    split
    · next h2 => rw [List.take_of_length_le (by omega)]
    · next h2 =>
      have hle : w.length ≤ m := by omega
      have h0 : m - w.length = 0 := by omega
      simp [List.take_of_length_le hle, h0]

/-- The canonical take-then-pad form always has length `m`. -/
theorem padTrunc_length (w : List Nat) (m : Nat) :
    (w.take m ++ List.replicate (m - w.length) 0).length = m := by
  simp [List.length_take]
  omega

/-- ClassifierRecord::new keeps the first `max_length` ids and right-pads
with 0. -/
theorem classifierRecord_new_word_ids (w : List Nat) (lid m : Nat) :
    (ClassifierRecord.new w lid m).word_ids =
      w.take m ++ List.replicate (m - w.length) 0 := by
  rw [← ifPadTrunc w m]
  unfold ClassifierRecord.new
  split_ifs <;> rfl

/-- ClassifierRecord::new does not touch the label id. -/
theorem classifierRecord_new_label (w : List Nat) (lid m : Nat) :
    (ClassifierRecord.new w lid m).label_id = lid := by
  unfold ClassifierRecord.new
  split_ifs <;> rfl

/-- SimilarityRecord::new treats the first text's ids like
ClassifierRecord::new does. -/
theorem similarityRecord_new_front (a b : List Nat) (lab m : Nat) :
    (SimilarityRecord.new a b lab m).front_word_ids =
      a.take m ++ List.replicate (m - a.length) 0 := by
  rw [← ifPadTrunc a m]
  unfold SimilarityRecord.new
  split_ifs <;> rfl

/-- SimilarityRecord::new treats the second text's ids like
ClassifierRecord::new does. -/
theorem similarityRecord_new_back (a b : List Nat) (lab m : Nat) :
    (SimilarityRecord.new a b lab m).back_word_ids =
      b.take m ++ List.replicate (m - b.length) 0 := by
  rw [← ifPadTrunc b m]
  unfold SimilarityRecord.new
  split_ifs <;> rfl

/-- Inserting a key not bound in the map appends the binding. -/
theorem mapInsert_fresh (m : List (String × Nat)) (k : String) (v : Nat)
    (h : ∀ p ∈ m, p.1 ≠ k) : mapInsert m k v = m ++ [(k, v)] := by
  induction m with
  | nil => rfl
  | cons p m ih =>
    simp only [mapInsert]
    rw [if_neg (h p (List.mem_cons_self p m))]
    rw [ih (fun q hq => h q (List.mem_cons_of_mem p hq))]
    rfl

/-- Looking up a key bound only at the very end of the map finds it. -/
theorem mapLookup_append_right (m : List (String × Nat)) (k : String) (v : Nat)
    (h : ∀ p ∈ m, p.1 ≠ k) : mapLookup (m ++ [(k, v)]) k = some v := by
  induction m with
  | nil => simp [mapLookup]
  | cons p m ih =>
    simp only [List.cons_append, mapLookup]
    rw [if_neg (h p (List.mem_cons_self p m))]
    exact ih (fun q hq => h q (List.mem_cons_of_mem p hq))

/-- assignIds produces one binding per token. -/
theorem assignIds_length (ws : List String) :
    ∀ i, (assignIds ws i).length = ws.length := by
  induction ws with
  | nil => intro i; rfl
  | cons w ws ih => intro i; simp [assignIds, ih]

/-- Every key bound by assignIds comes from the token list. -/
theorem assignIds_keys (ws : List String) :
    ∀ i p, p ∈ assignIds ws i → p.1 ∈ ws := by
  induction ws with
  | nil => intro i p h; simp [assignIds] at h
  | cons w ws ih =>
    intro i p hp
    rcases List.mem_cons.mp hp with rfl | hp'
    · simp
    · exact List.mem_cons_of_mem w (ih (i + 1) p hp')

/-- The ids assigned by assignIds are the consecutive range from `i`. -/
theorem assignIds_snd (ws : List String) :
    ∀ i, (assignIds ws i).map Prod.snd = List.range' i ws.length := by
  induction ws with
  | nil => intro i; rfl
  | cons w ws ih => intro i; simp [assignIds, ih, List.range'_succ]

/-- The enumerate-insert loop over fresh, pairwise distinct keys is a plain
append of consecutive bindings. -/
theorem insertEnumFrom_fresh (ws : List String) :
    ∀ (m : List (String × Nat)) (i : Nat),
      ws.Nodup → (∀ w ∈ ws, ∀ p ∈ m, p.1 ≠ w) →
      insertEnumFrom m ws i = m ++ assignIds ws i := by
  induction ws with
  | nil => intro m i _ _; simp [insertEnumFrom, assignIds]
  | cons w ws ih =>
    intro m i hnd hf
    simp only [insertEnumFrom, assignIds]
    rw [mapInsert_fresh m w i (hf w (List.mem_cons_self w ws))]
    rw [ih (m ++ [(w, i)]) (i + 1) hnd.of_cons ?_]
    · simp
    · intro w' hw' p hp
      rcases List.mem_append.mp hp with h | h
      · exact hf w' (List.mem_cons_of_mem w hw') p h
      · obtain rfl : p = (w, i) := by simpa using h
        have hwn : w ∉ ws := (List.nodup_cons.mp hnd).1
        intro hc
        exact hwn (by rwa [← hc] at hw')

/-- buildVocab over fresh special tokens is the explicit list of bindings:
padding at 0, the filtered tokens at 1.., the unknown token last. -/
theorem buildVocab_eq (tokens stopwords : List String) (pad unk : String)
    (hnd : tokens.Nodup)
    (hp : pad ∉ tokens.filter (fun w => !(stopwords.contains w)))
    (hu : unk ∉ tokens.filter (fun w => !(stopwords.contains w)))
    (hpu : pad ≠ unk) :
    buildVocab tokens stopwords pad unk =
      ((pad, 0) :: assignIds (tokens.filter (fun w => !(stopwords.contains w))) 1)
        ++ [(unk, (tokens.filter (fun w => !(stopwords.contains w))).length + 1)] := by
  simp only [buildVocab]
  have h1 : insertEnumFrom (mapInsert [] pad 0)
      (tokens.filter (fun w => !(stopwords.contains w))) 1 =
      (pad, 0) :: assignIds (tokens.filter (fun w => !(stopwords.contains w))) 1 := by
    have := insertEnumFrom_fresh (tokens.filter (fun w => !(stopwords.contains w)))
      [(pad, 0)] 1 (hnd.filter _) ?_
    · simpa [mapInsert] using this
    · intro w hw p hpmem
      obtain rfl : p = (pad, 0) := by simpa using hpmem
      intro hc
      have hc' : pad = w := hc
      rw [← hc'] at hw
      exact hp hw
  rw [h1]
  rw [mapInsert_fresh _ unk _ ?_]
  · simp [assignIds_length]
  · intro p hpmem
    rcases List.mem_cons.mp hpmem with rfl | hpmem'
    · exact hpu
    · intro hc
      exact hu (by rw [← hc]; exact assignIds_keys _ _ _ hpmem')

/-- The vocabulary invariants of a buildVocab result with fresh special
tokens: padding at 0, unknown last at size - 1, ids exactly 0..size-1. -/
theorem buildVocab_spec (tokens stopwords : List String) (pad unk : String)
    (hnd : tokens.Nodup)
    (hp : pad ∉ tokens.filter (fun w => !(stopwords.contains w)))
    (hu : unk ∉ tokens.filter (fun w => !(stopwords.contains w)))
    (hpu : pad ≠ unk) :
    mapLookup (buildVocab tokens stopwords pad unk) pad = some 0 ∧
    mapLookup (buildVocab tokens stopwords pad unk) unk =
      some ((buildVocab tokens stopwords pad unk).length - 1) ∧
    (buildVocab tokens stopwords pad unk).map Prod.snd =
      List.range (buildVocab tokens stopwords pad unk).length := by
  rw [buildVocab_eq tokens stopwords pad unk hnd hp hu hpu]
  set filtered := tokens.filter (fun w => !(stopwords.contains w)) with hfil
  have hlen : (((pad, 0) :: assignIds filtered 1) ++ [(unk, filtered.length + 1)]).length
      = filtered.length + 2 := by
    simp [assignIds_length]
  have hfresh : ∀ p ∈ ((pad, 0) :: assignIds filtered 1), p.1 ≠ unk := by
    intro p hpmem
    rcases List.mem_cons.mp hpmem with rfl | hpmem'
    · exact hpu
    · intro hc
      exact hu (by rw [← hc]; exact assignIds_keys _ _ _ hpmem')
  refine ⟨?_, ?_, ?_⟩
  · simp [mapLookup]
  · rw [mapLookup_append_right _ unk _ hfresh, hlen]
    norm_num
  · rw [hlen]
    simp only [List.map_append, List.map_cons, assignIds_snd, List.map_nil]
    rw [List.range_eq_range' (filtered.length + 2)]
    rw [show filtered.length + 2 = (filtered.length + 1) + 1 from rfl,
      List.range'_succ, List.range'_1_concat]
    simp [Nat.add_comm]

/-- mapOpt succeeds positionally: the results line up index by index with the
inputs. -/
theorem mapOpt_some (f : α → Option β) :
    ∀ (l : List α) (bs : List β), mapOpt f l = some bs →
      bs.length = l.length ∧
      ∀ k a, l.get? k = some a → ∃ b, bs.get? k = some b ∧ f a = some b := by
  intro l
  induction l with
  | nil =>
    intro bs h
    simp only [mapOpt, Option.some.injEq] at h
    subst h
    exact ⟨rfl, by intro k a ha; simp at ha⟩
  | cons a l ih =>
    intro bs h
    simp only [mapOpt] at h
    cases hfa : f a with
    | none => rw [hfa] at h; exact absurd h (by simp)
    | some b =>
      cases hml : mapOpt f l with
      | none => rw [hfa, hml] at h; exact absurd h (by simp)
      | some bs' =>
        rw [hfa, hml] at h
        injection h with h
        subst h
        obtain ⟨hlen, hget⟩ := ih bs' hml
        refine ⟨by simp [hlen], ?_⟩
        intro k x hk
        cases k with
        | zero =>
          simp only [List.get?] at hk
          injection hk with hk
          subst hk
          exact ⟨b, rfl, hfa⟩
        | succ k =>
          simp only [List.get?] at hk ⊢
          exact hget k x hk

/-- mapOpt panics (returns none) as soon as any element's step panics. -/
theorem mapOpt_none_of_mem (f : α → Option β) :
    ∀ (l : List α) (a : α), a ∈ l → f a = none → mapOpt f l = none := by
  intro l
  induction l with
  | nil => intro a h _; simp at h
  | cons x l ih =>
    intro a ha hfa
    rcases List.mem_cons.mp ha with rfl | ha'
    · simp only [mapOpt, hfa]
    · simp only [mapOpt, ih a ha' hfa]
      cases f x <;> rfl

/-- Positional characterization of ClassifierBuilder::build_dataset: when it
succeeds, record `k` encodes sample `k`'s tokens with the shared vocabulary
(unknown fallback), truncated/padded to the configured length. -/
theorem classifierBuildDataset_some (args : ClassifierArgs)
    (vocab classes : List (String × Nat)) (samples : List ClassifierSample)
    (recs : List ClassifierRecord) (unkId : Nat)
    (hu : mapLookup vocab args.unknown = some unkId)
    (h : classifierBuildDataset args vocab classes samples = some recs) :
    recs.length = samples.length ∧
    ∀ k s, samples.get? k = some s → ∃ r, recs.get? k = some r ∧
      r.word_ids =
        ((tokenize args.with_lang_en s.sent).map (encodeToken vocab unkId)).take
            args.sequence_length ++
          List.replicate
            (args.sequence_length - (tokenize args.with_lang_en s.sent).length) 0 := by
  unfold classifierBuildDataset at h
  rw [hu] at h
  obtain ⟨hlen, hget⟩ := mapOpt_some _ samples recs h
  refine ⟨hlen, ?_⟩
  intro k s hk
  obtain ⟨r, hr, hfr⟩ := hget k s hk
  refine ⟨r, hr, ?_⟩
  cases hres : classifierResolveLabel args classes s.label with
  | none => rw [hres] at hfr; exact absurd hfr (by simp)
  | some lid =>
    rw [hres] at hfr
    simp only [Option.map_some', Option.some.injEq] at hfr
    rw [← hfr, classifierRecord_new_word_ids]
    simp [List.length_map]

/-- C1: every Record produced by the classification or similarity encoder has
id sequences of exactly the configured maximum length: a longer looked-up id
sequence is truncated to its first `max_length` ids, a shorter one is
right-padded with the padding id 0. -/
theorem fastrecord_c1_fixed_length (w a b : List Nat) (lid lab m : Nat) :
    ((ClassifierRecord.new w lid m).word_ids.length = m ∧
     (ClassifierRecord.new w lid m).word_ids =
       w.take m ++ List.replicate (m - w.length) 0) ∧
    ((SimilarityRecord.new a b lab m).front_word_ids.length = m ∧
     (SimilarityRecord.new a b lab m).back_word_ids.length = m ∧
     (SimilarityRecord.new a b lab m).front_word_ids =
       a.take m ++ List.replicate (m - a.length) 0 ∧
     (SimilarityRecord.new a b lab m).back_word_ids =
       b.take m ++ List.replicate (m - b.length) 0) := by
  refine ⟨⟨?_, classifierRecord_new_word_ids w lid m⟩,
          ?_, ?_, similarityRecord_new_front a b lab m,
          similarityRecord_new_back a b lab m⟩
  · rw [classifierRecord_new_word_ids]
    exact padTrunc_length w m
  · rw [similarityRecord_new_front]
    exact padTrunc_length a m
  · rw [similarityRecord_new_back]
    exact padTrunc_length b m

/-- C2 counterexample: the claim fails as stated when the configured padding
token itself occurs as a training token.  With padding "p", unknown "u" and the
single word-mode training sample "p", the built vocabulary no longer maps the
padding token to 0 (the data token "p" overwrote it with id 1). -/
theorem fastrecord_c2_counterexample :
    mapLookup (classifierInitVocab sampleArgsWordPad [] [⟨"p", "0"⟩])
        sampleArgsWordPad.padding ≠ some 0 ∧
    mapLookup (classifierInitVocab sampleArgsWordPad [] [⟨"p", "0"⟩])
        sampleArgsWordPad.padding = some 1 := by
  decide

/-- C2 (amended): for a vocabulary built from any training split, provided the
configured padding and unknown tokens are distinct and neither occurs among the
(stopword-filtered) training tokens, the padding token maps to id 0, the
unknown token maps to the last id (the size before its insertion, i.e. size - 1
after), and the assigned ids are exactly 0..size-1.  Holds for the classifier
and the similarity builder alike. -/
theorem fastrecord_c2_vocab_invariants :
    (∀ (args : ClassifierArgs) (stopwords : List String)
        (samples : List ClassifierSample),
      args.padding ∉ (classifierCollectTokens args.with_lang_en samples).filter
        (fun w => !(stopwords.contains w)) →
      args.unknown ∉ (classifierCollectTokens args.with_lang_en samples).filter
        (fun w => !(stopwords.contains w)) →
      args.padding ≠ args.unknown →
      mapLookup (classifierInitVocab args stopwords samples) args.padding = some 0 ∧
      mapLookup (classifierInitVocab args stopwords samples) args.unknown =
        some ((classifierInitVocab args stopwords samples).length - 1) ∧
      (classifierInitVocab args stopwords samples).map Prod.snd =
        List.range (classifierInitVocab args stopwords samples).length) ∧
    (∀ (args : SimilarityArgs) (stopwords : List String)
        (samples : List SimilaritySample),
      args.padding ∉ (similarityCollectTokens args.with_lang_en samples).filter
        (fun w => !(stopwords.contains w)) →
      args.unknown ∉ (similarityCollectTokens args.with_lang_en samples).filter
        (fun w => !(stopwords.contains w)) →
      args.padding ≠ args.unknown →
      mapLookup (similarityInitVocab args stopwords samples) args.padding = some 0 ∧
      mapLookup (similarityInitVocab args stopwords samples) args.unknown =
        some ((similarityInitVocab args stopwords samples).length - 1) ∧
      (similarityInitVocab args stopwords samples).map Prod.snd =
        List.range (similarityInitVocab args stopwords samples).length) := by
  constructor
  · intro args stopwords samples hp hu hpu
    exact buildVocab_spec (classifierCollectTokens args.with_lang_en samples)
      stopwords args.padding args.unknown (List.nodup_dedup _) hp hu hpu
  · intro args stopwords samples hp hu hpu
    exact buildVocab_spec (similarityCollectTokens args.with_lang_en samples)
      stopwords args.padding args.unknown (List.nodup_dedup _) hp hu hpu

/-- C2 witness: the default configuration on the training sample "ab" in
character mode yields PAD at 0, UNK at the last id 3, and dense ids 0..3. -/
theorem fastrecord_c2_witness :
    mapLookup (classifierInitVocab sampleArgs [] [⟨"ab", "pos"⟩]) "<PAD>" = some 0 ∧
    mapLookup (classifierInitVocab sampleArgs [] [⟨"ab", "pos"⟩]) "<UNK>" =
      some ((classifierInitVocab sampleArgs [] [⟨"ab", "pos"⟩]).length - 1) ∧
    (classifierInitVocab sampleArgs [] [⟨"ab", "pos"⟩]).map Prod.snd =
      List.range (classifierInitVocab sampleArgs [] [⟨"ab", "pos"⟩]).length :=
  fastrecord_c2_vocab_invariants.1 sampleArgs [] [⟨"ab", "pos"⟩]
    (by decide) (by decide) (by decide)

/-- C3: the tagging encoder never truncates: a token/tag sequence longer than
the configured maximum makes TaggingRecord::new panic (`none`), and a produced
record always carries the full input sequences, only right-padded with 0. -/
theorem fastrecord_c3_tagging_overflow (toks tags : List Nat) (m : Nat) :
    (TaggingRecord.new toks tags m = none ↔ m < toks.length) ∧
    (∀ r, TaggingRecord.new toks tags m = some r →
      r.token_ids = toks ++ List.replicate (m - toks.length) 0 ∧
      r.tag_ids = tags ++ List.replicate (m - toks.length) 0) := by
  constructor
  · unfold TaggingRecord.new
    split_ifs with h1 h2
    · exact iff_of_true rfl (by omega)
    · exact iff_of_false (by simp) (by omega)
    · exact iff_of_false (by simp) (by omega)
  · intro r h
    unfold TaggingRecord.new at h
    split_ifs at h with h1 h2
    · injection h with h
      subst h
      exact ⟨rfl, rfl⟩
    · have h0 : m - toks.length = 0 := by omega
      injection h with h
      subst h
      simp [h0]

/-- C3 witness: a tagging sample of five pairs with maximum length two fails
rather than producing a truncated record. -/
theorem fastrecord_c3_witness :
    TaggingRecord.new [1, 2, 3, 4, 5] [6, 7, 8, 9, 10] 2 = none :=
  (fastrecord_c3_tagging_overflow [1, 2, 3, 4, 5] [6, 7, 8, 9, 10] 2).1.mpr
    (by decide)

/-- C4: within one build the vocabulary is fixed after construction from the
training split and shared by every split: a token bound in it always encodes to
its id, an unbound token always encodes to the unknown id, each record's ids
are determined by that one vocabulary alone, and IDataset::build hands the very
vocabulary built from train to the dev and test encodings unchanged. -/
theorem fastrecord_c4_shared_vocab :
    (∀ (vocab : List (String × Nat)) (unkId : Nat) (tok : String) (i : Nat),
      mapLookup vocab tok = some i → encodeToken vocab unkId tok = i) ∧
    (∀ (vocab : List (String × Nat)) (unkId : Nat) (tok : String),
      mapLookup vocab tok = none → encodeToken vocab unkId tok = unkId) ∧
    (∀ (args : ClassifierArgs) (vocab classes : List (String × Nat))
        (samples : List ClassifierSample) (recs : List ClassifierRecord)
        (unkId : Nat),
      mapLookup vocab args.unknown = some unkId →
      classifierBuildDataset args vocab classes samples = some recs →
      recs.length = samples.length ∧
      ∀ k s, samples.get? k = some s → ∃ r, recs.get? k = some r ∧
        r.word_ids =
          ((tokenize args.with_lang_en s.sent).map (encodeToken vocab unkId)).take
              args.sequence_length ++
            List.replicate
              (args.sequence_length - (tokenize args.with_lang_en s.sent).length)
              0) ∧
    (∀ (args : ClassifierArgs) (cls stp tl dl xl : List String)
        (v : List (String × Nat)) (tr dr xr : List ClassifierRecord),
      classifierBuild args cls stp tl dl xl = some (v, tr, dr, xr) →
      ∃ trainS devS testS,
        classifierParseLines args.separator tl = some trainS ∧
        v = classifierInitVocab args stp trainS ∧
        classifierBuildDataset args v (classifierClasses cls) trainS = some tr ∧
        classifierParseLines args.separator dl = some devS ∧
        classifierBuildDataset args v (classifierClasses cls) devS = some dr ∧
        classifierParseLines args.separator xl = some testS ∧
        classifierBuildDataset args v (classifierClasses cls) testS = some xr) := by
  refine ⟨?_, ?_, ?_, ?_⟩
  · intro vocab unkId tok i h
    simp [encodeToken, h]
  · intro vocab unkId tok h
    simp [encodeToken, h]
  · intro args vocab classes samples recs unkId hu h
    exact classifierBuildDataset_some args vocab classes samples recs unkId hu h
  · intro args cls stp tl dl xl v tr dr xr h
    simp only [classifierBuild, Option.bind_eq_some, Option.map_eq_some'] at h
    obtain ⟨trainS, h1, trainR, h2, devS, h3, devR, h4, testS, h5, testR, h6, h7⟩ := h
    obtain ⟨hv, htr, hdr, hxr⟩ : classifierInitVocab args stp trainS = v ∧
        trainR = tr ∧ devR = dr ∧ testR = xr := by
      have := congrArg Prod.fst h7
      have h7' := congrArg Prod.snd h7
      have h7'' := congrArg Prod.snd h7'
      exact ⟨this, congrArg Prod.fst h7', congrArg Prod.fst h7'',
        congrArg Prod.snd h7''⟩
    subst hv htr hdr hxr
    exact ⟨trainS, devS, testS, h1, rfl, h2, h3, h4, h5, h6⟩

/-- C4 witness: with unknown id 7, the token "a" bound at id 1 encodes to 1. -/
theorem fastrecord_c4_witness : encodeToken [("a", 1)] 7 "a" = 1 :=
  fastrecord_c4_shared_vocab.1 [("a", 1)] 7 "a" 1 (by decide)

/-- C5: on the two-line input "a\t0", "b\t1" the read phase of
ClassifierBuilder::read_dataset (rayon par_bridge, no ordering guarantee)
admits both the in-order and the swapped sample sequence, which differ — so
the produced record row order is not determined by the input order, contrary
to the order-preservation requirement. -/
theorem fastrecord_c5_order_not_guaranteed :
    ClassifierReadRel "\t" ["a\t0", "b\t1"]
      [⟨"a", "0"⟩, ⟨"b", "1"⟩] ∧
    ClassifierReadRel "\t" ["a\t0", "b\t1"]
      [⟨"b", "1"⟩, ⟨"a", "0"⟩] ∧
    ([⟨"a", "0"⟩, ⟨"b", "1"⟩] : List ClassifierSample) ≠
      [⟨"b", "1"⟩, ⟨"a", "0"⟩] := by
  refine ⟨⟨[⟨"a", "0"⟩, ⟨"b", "1"⟩], by decide, List.Perm.refl _⟩,
    ⟨[⟨"a", "0"⟩, ⟨"b", "1"⟩], by decide, List.Perm.swap _ _ _⟩, by decide⟩

/-- C6 counterexample: the claim says a line that cannot be split on the
separator is dropped and the build continues; on the single unsplittable line
"ab" the classifier read in fact panics (`none`), and in particular does not
return the empty (dropped-line) split. -/
theorem fastrecord_c6_counterexample :
    classifierParseLines "\t" ["ab"] = none ∧
    classifierParseLines "\t" ["ab"] ≠ some [] := by
  decide

/-- C6 (amended): in all three builders a line that cannot be split on the
configured separator makes the whole split's read panic (`unwrap` on `None`):
the line is not dropped and the build does not continue. -/
theorem fastrecord_c6_unsplittable_line_panics :
    (∀ (sep : String) (lines : List String) (line : String), line ∈ lines →
      splitOnce sep line = none → classifierParseLines sep lines = none) ∧
    (∀ (withBool : Bool) (sentSep labelSep : String) (lines : List String)
        (line : String), line ∈ lines → splitOnce labelSep line = none →
      similarityParseLines withBool sentSep labelSep lines = none) ∧
    (∀ (sep : String) (lines : List String) (g : List String) (line : String),
      g ∈ splitGroups lines → line ∈ g → splitOnce sep line = none →
      taggingParseLines sep lines = none) := by
  refine ⟨?_, ?_, ?_⟩
  · intro sep lines line hmem hsplit
    exact mapOpt_none_of_mem _ lines line hmem
      (by simp [classifierParseLine, hsplit])
  · intro wb ss ls lines line hmem hsplit
    exact mapOpt_none_of_mem _ lines line hmem
      (by simp [similarityParseLine, hsplit])
  · intro sep lines g line hg hline hsplit
    exact mapOpt_none_of_mem _ (splitGroups lines) g hg
      (by simp [taggingParseGroup, mapOpt_none_of_mem _ g line hline hsplit])

/-- C6 witness: the unsplittable line "ab" aborts the classifier read. -/
theorem fastrecord_c6_witness : classifierParseLines "\t" ["ab", "c\t1"] = none :=
  fastrecord_c6_unsplittable_line_panics.1 "\t" ["ab", "c\t1"] "ab"
    (by decide) (by decide)

/-- C7: a tag absent from the training-derived tag map resolves to id 0 (the
padding tag id) at encode time, and such a sample still encodes successfully —
the absent tag is neither an error nor mapped to the unknown id. -/
theorem fastrecord_c7_unseen_tag_is_padding :
    (∀ (tagsMap : List (String × Nat)) (t : String),
      mapLookup tagsMap t = none → encodeTag tagsMap t = 0) ∧
    (∀ (args : TaggingArgs) (vocab tagsMap : List (String × Nat)) (unkId : Nat)
        (s : TaggingSample),
      mapLookup vocab args.unknown = some unkId →
      s.tokens.length ≤ args.sequence_length →
      taggingBuildDataset args vocab tagsMap [s] =
        some [⟨s.tokens.map (encodeToken vocab unkId) ++
                 List.replicate (args.sequence_length - s.tokens.length) 0,
               s.tags.map (encodeTag tagsMap) ++
                 List.replicate (args.sequence_length - s.tokens.length) 0⟩]) := by
  constructor
  · intro tagsMap t h
    simp [encodeTag, h]
  · intro args vocab tagsMap unkId s hu hlen
    unfold taggingBuildDataset
    rw [hu]
    simp only [mapOpt]
    rw [show TaggingRecord.new (s.tokens.map (encodeToken vocab unkId))
        (s.tags.map (encodeTag tagsMap)) args.sequence_length =
        some ⟨s.tokens.map (encodeToken vocab unkId) ++
                List.replicate (args.sequence_length - s.tokens.length) 0,
              s.tags.map (encodeTag tagsMap) ++
                List.replicate (args.sequence_length - s.tokens.length) 0⟩ from ?_]
    · unfold TaggingRecord.new
      split_ifs with h1 h2
      · rw [List.length_map] at h1
        omega
      · rw [List.length_map]
      · rw [List.length_map] at h2 h1
        have h0 : args.sequence_length - s.tokens.length = 0 := by omega
        simp [h0]

/-- C7 witness: the tag "X", absent from the tag map binding only "B", encodes
to the padding tag id 0. -/
theorem fastrecord_c7_witness : encodeTag [("B", 1)] "X" = 0 :=
  fastrecord_c7_unseen_tag_is_padding.1 [("B", 1)] "X" (by decide)

/-- C8: the configured maximum vocabulary size is dead configuration — two
classifier builds on identical inputs differing only in `max_vocab_size`
produce the identical vocabulary and identical records for all three splits. -/
theorem fastrecord_c8_vocab_cap_no_effect (args : ClassifierArgs) (v : Nat)
    (cls stp tl dl xl : List String) :
    classifierBuild
      ⟨args.path, args.output_path, args.with_vocab, v, args.sequence_length,
        args.stopwords_file, args.with_label_id, args.with_lang_en,
        args.separator, args.unknown, args.padding⟩ cls stp tl dl xl =
    classifierBuild args cls stp tl dl xl := rfl

/-- C9 counterexample: the claim says the vocabulary is serialized as
token<TAB>id lines; for the single entry ("a", 1) the written line is in fact
"1\ta" (id<TAB>token), not "a\t1". -/
theorem fastrecord_c9_counterexample :
    saveVocabLines [("a", 1)] = ["1\ta"] ∧
    saveVocabLines [("a", 1)] ≠ ["a\t1"] := by
  decide

/-- C9 (amended): save_vocab writes exactly one line per vocabulary entry, of
the form id<TAB>token. -/
theorem fastrecord_c9_vocab_lines (vocab : List (String × Nat)) :
    (saveVocabLines vocab).length = vocab.length ∧
    ∀ w i, (w, i) ∈ vocab → (toString i ++ "\t" ++ w) ∈ saveVocabLines vocab := by
  refine ⟨by simp [saveVocabLines], ?_⟩
  intro w i hmem
  exact List.mem_map_of_mem (fun p => toString p.2 ++ "\t" ++ p.1) hmem

/-- C9 witness: the entry ("a", 1) is serialized as the line "1\ta". -/
theorem fastrecord_c9_witness :
    (toString 1 ++ "\t" ++ "a") ∈ saveVocabLines [("a", 1)] :=
  (fastrecord_c9_vocab_lines [("a", 1)]).2 "a" 1 (by decide)

/-- C10: the serializer's class column stores `label_id as u8`, i.e.
`label_id % 256`, for every record of a chunk; each tagging tag column
likewise stores the tag ids modulo 256; and for a label id of 256 or more the
stored value silently differs from the id (wraparound, no error). -/
theorem fastrecord_c10_u8_wraparound :
    (∀ (m : Nat) (chunk : List ClassifierRecord),
      (classifierColumns m chunk).getLast? =
        some (chunk.map (fun r => r.label_id % 256))) ∧
    (∀ (m : Nat) (chunk : List TaggingRecord) (i : Nat), i < m →
      (chunk.map (fun r => r.tag_ids.getD i 0 % 256)) ∈ taggingColumns m chunk) ∧
    (∀ r : ClassifierRecord, 256 ≤ r.label_id →
      asU8 r.label_id ≠ r.label_id ∧ asU8 r.label_id < 256) := by
  refine ⟨?_, ?_, ?_⟩
  · intro m chunk
    unfold classifierColumns
    rw [List.getLast?_concat]
    rfl
  · intro m chunk i him
    unfold taggingColumns
    apply List.mem_flatMap.mpr
    refine ⟨i, List.mem_range.mpr him, ?_⟩
    simp [asU8]
  · intro r h
    unfold asU8
    have hlt := Nat.mod_lt r.label_id (show 0 < 256 by norm_num)
    exact ⟨by omega, hlt⟩

/-- C10 witness: a record with label id 300 has its class column value wrap to
44, a silently different value below 256. -/
theorem fastrecord_c10_witness :
    asU8 (ClassifierRecord.mk [1, 2] 300).label_id ≠
        (ClassifierRecord.mk [1, 2] 300).label_id ∧
      asU8 (ClassifierRecord.mk [1, 2] 300).label_id < 256 :=
  fastrecord_c10_u8_wraparound.2.2 ⟨[1, 2], 300⟩ (by norm_num)
